import Mathlib

/-!
Verification of the benchmark harness in `scripts/benchmarks.py` of the
geospeed repository.

The harness runs a fixed list of benchmark scripts as subprocesses, samples
memory concurrently (when the optional `psutil` dependency is present), and
aggregates the outcomes into a JSON report.  We shallowly embed the harness:

* machine memory values (bytes) are natural numbers; megabyte values obtained
  by dividing by 1024*1024 are rationals (`ℚ`), an exact idealisation of the
  Python floats — no claim below depends on float rounding;
* the sampler thread's loop body is embedded as a function over a finite trace
  of "ticks"; each tick records what the three per-sample reads
  (`psutil.virtual_memory().available`, `this_proc.memory_info().rss`,
  `this_proc.children(recursive=True)` and each child's `memory_info().rss`)
  would return at that instant: a value or a raised `psutil.Error`;
* the subprocess is an opaque collaborator: launch success, exit code, and
  captured stdout/stderr text are inputs;
* fallible Python code is embedded in `Except`.
-/

/-- A Python exception relevant to the harness: `AttributeError` (raised when
an attribute is accessed on `None`) or `psutil.Error`. -/
inductive PyErr where
  | attributeError
  | psutilError
deriving DecidableEq

/-- One iteration's worth of raw sample reads, as seen by the sampler loop in
`run_script` (benchmarks.py lines 80-90).  `vmAvail` is
`psutil.virtual_memory().available` in bytes, `memRss` is
`this_proc.memory_info().rss` in bytes, `children` is the enumeration
`this_proc.children(recursive=True)` where each child read
`child.memory_info().rss` may itself raise.  The trace of ticks given to the
loop is the sequence of iterations before `stop_flag` is observed true. -/
structure Tick where
  vmAvail : Except PyErr Nat
  memRss : Except PyErr Nat
  children : Except PyErr (List (Except PyErr Nat))

/-- Bytes to megabytes, as in `x / (1024 * 1024)` (lines 81, 88, 98). -/
def bytesToMb (b : Nat) : ℚ := (b : ℚ) / (1024 * 1024)

/-- The sampler's shared extrema `min_mem_free_mb` and `peak_mem_mb`
(`None` initially, lines 67-68). -/
structure SamplerState where
  minFree : Option ℚ
  peak : Option ℚ
deriving DecidableEq

/-- Line 82: `mem_free_mb if min_mem_free_mb is None else min(min_mem_free_mb, mem_free_mb)`. -/
def updateMinFree (old : Option ℚ) (v : ℚ) : ℚ :=
  match old with
  | none => v
  | some m => min m v

/-- Line 89: `cur_mb if peak_mem_mb is None or cur_mb > peak_mem_mb else peak_mem_mb`. -/
def updatePeak (old : Option ℚ) (v : ℚ) : ℚ :=
  match old with
  | none => v
  | some p => if v > p then v else p

/-- Lines 84-87: starting from the parent's rss, add each child's rss,
skipping children whose read raises (`contextlib.suppress(psutil.Error)`). -/
def childrenRss (rss0 : Nat) (cs : List (Except PyErr Nat)) : Nat :=
  cs.foldl (fun acc c => match c with | .ok v => acc + v | .error _ => acc) rss0

/-- The sampler loop, lines 80-92.  The whole loop body sits inside a single
`try ... except psutil.Error: pass`, so a `psutil.Error` raised by the
system-memory read, the parent rss read, or the child enumeration terminates
the loop (silently), keeping whatever extrema were already recorded; only a
per-child rss read failure is suppressed in place and sampling continues. -/
def samplerLoop : SamplerState → List Tick → SamplerState
  | st, [] => st
  | st, t :: rest =>
    match t.vmAvail with
    | .error _ => st
    | .ok avail =>
      let st1 : SamplerState := { st with minFree := some (updateMinFree st.minFree (bytesToMb avail)) }
      match t.memRss with
      | .error _ => st1
      | .ok rss0 =>
        match t.children with
        | .error _ => st1
        | .ok cs =>
          let cur := bytesToMb (childrenRss rss0 cs)
          samplerLoop { st1 with peak := some (updatePeak st1.peak cur) } rest

/-- The sampler body, lines 73-92: `psutil.Process()` construction (line 79)
is also inside the outer `try`; if it raises (`procInit = false`) the loop
never runs and both extrema stay `None`. -/
def samplerRun (procInit : Bool) (ticks : List Tick) : SamplerState :=
  if procInit then samplerLoop ⟨none, none⟩ ticks else ⟨none, none⟩

/-- Modelled from the spec (for comparison with `samplerLoop`): the sampler
the claim describes, in which EVERY per-sample read failure — including the
system-memory read, the parent rss read, and the child enumeration — is
"absorbed silently and the sampling loop continues to the next tick". -/
def samplerLoopClaimed : SamplerState → List Tick → SamplerState
  | st, [] => st
  | st, t :: rest =>
    let st1 : SamplerState :=
      match t.vmAvail with
      | .error _ => st
      | .ok avail => { st with minFree := some (updateMinFree st.minFree (bytesToMb avail)) }
    let st2 : SamplerState :=
      match t.memRss with
      | .error _ => st1
      | .ok rss0 =>
        match t.children with
        | .error _ => st1
        | .ok cs => { st1 with peak := some (updatePeak st1.peak (bytesToMb (childrenRss rss0 cs))) }
    samplerLoopClaimed st2 rest

/-- What `subprocess.run([sys.executable, str(path)], ...)` did: whether the
launch succeeded (`launched = false` models `FileNotFoundError`), the exit
code, and the captured stdout/stderr text.  `errMsg` is the text of the
`FileNotFoundError` when the launch failed. -/
structure SubprocResult where
  launched : Bool
  returncode : Int
  stdout : String
  stderr : String
  errMsg : String

/-- Line 108: `(proc.stdout or "") + ("\n" + proc.stderr if proc.stderr else "")`.
A non-empty string is truthy in Python. -/
def combineOutput (out err : String) : String :=
  out ++ (if err ≠ "" then "\n" ++ err else "")

/-- The tuple returned by `run_script` (lines 104 and 109): exit code,
duration, captured output, `peak_mem_mb`, `peak_mem_less_avail_mb`. -/
structure RunResult where
  code : Int
  dur : ℚ
  out : String
  peak : Option ℚ
  pressure : Option ℚ
deriving DecidableEq

/-- Lines 103 and 107: `pre_mem_free_mb - min_mem_free_mb if min_mem_free_mb
is not None else None`. -/
def computePressure (preMb : ℚ) (minFree : Option ℚ) : Option ℚ :=
  match minFree with
  | none => none
  | some m => some (preMb - m)

/-- `run_script` (lines 64-113).  The sampler thread is started only when
`psutil is not None` (lines 95-96), but line 98 evaluates
`psutil.virtual_memory().available` UNCONDITIONALLY: when `psutil` is `None`
this raises `AttributeError` before the subprocess is launched, so the
function aborts instead of returning a result tuple.  When psutil is
available, `preBytes` is the line-98 reading and `ticks` the trace the
concurrently running sampler observed; `dur` the measured wall-clock
duration. -/
def runScript (psutilAvailable procInit : Bool) (preBytes : Nat) (ticks : List Tick)
    (sub : SubprocResult) (dur : ℚ) : Except PyErr RunResult :=
  if psutilAvailable then
    let st := samplerRun procInit ticks
    let preMb := bytesToMb preBytes
    let pressure := computePressure preMb st.minFree
    if sub.launched then
      Except.ok ⟨sub.returncode, dur, combineOutput sub.stdout sub.stderr, st.peak, pressure⟩
    else
      Except.ok ⟨127, dur, "File not found: " ++ sub.errMsg, st.peak, pressure⟩
  else
    Except.error PyErr.attributeError

example : samplerRun true [⟨Except.ok (150 * 1048576), Except.ok 0, Except.ok []⟩]
    = ⟨some 150, some 0⟩ := by
  simp [samplerRun, samplerLoop, updateMinFree, updatePeak, childrenRss]
  norm_num [bytesToMb]

/-- The data directory as seen by `has_data` (lines 56-61): whether the
directory exists, and, for every path matched by the glob
`*/GebauedeBauwerk.shp` (one level of subdirectories), whether `is_file()`
holds.  `dirName` is the textual form of the path, used in the skip reason. -/
structure FS where
  dirExists : Bool
  globIsFile : List Bool
  dirName : String

/-- Lines 56-61: `has_data` returns True iff the directory exists and at
least one glob match is a file. -/
def has_data (fs : FS) : Bool :=
  fs.dirExists && fs.globIsFile.any id

/-- Python's `round(x, d)`.  Python rounds half to even while Mathlib's
`round` rounds half up; no claim below depends on the tie-breaking rule. -/
def roundTo (d : Nat) (q : ℚ) : ℚ :=
  ((round (q * (10 : ℚ) ^ d) : ℤ) : ℚ) / (10 : ℚ) ^ d

/-- Split a character list at each newline, keeping empty segments:
`splitNL "a\n\nb".data = [['a'], [], ['b']]`. -/
def splitNL : List Char → List (List Char)
  | [] => [[]]
  | c :: rest =>
    if c = '\n' then [] :: splitNL rest
    else
      match splitNL rest with
      | [] => [[c]]
      | l :: ls => (c :: l) :: ls

/-- Python's `str.splitlines()` on the captured output.  The subprocess is
run with `text=True`, so universal-newline decoding has already translated
`\r` and `\r\n` to `\n`; splitting on `\n` is therefore exact.  As in Python,
the empty string yields `[]` and a trailing newline does not produce a
trailing empty line. -/
def pySplitlines (s : String) : List String :=
  if s.data = [] then []
  else
    let parts := (splitNL s.data).map (fun l => String.mk l)
    if s.data.getLast? = some '\n' then parts.dropLast else parts

/-- Python's `lst[-20:]` generalised: the last `n` elements (all of them when
the list is shorter). -/
def takeLast (n : Nat) (l : List String) : List String :=
  l.drop (l.length - n)

/-- One entry of `results["runs"]` (lines 136-155).  Optional fields model
JSON keys that are present only conditionally; `durationSec = none` models
the JSON value `null`. -/
structure RunEntry where
  status : String
  durationSec : Option ℚ
  exitCode : Int
  peakMemoryMb : Option ℚ
  peakMemoryLessAvailableMb : Option ℚ
  logTail : Option (List String)
deriving DecidableEq

/-- Lines 143-155: the entry recorded for a job whose script exists, built
from the `run_script` result.  `peak_memory_mb` / `peak_memory_less_available_mb`
are added only when the corresponding value is not `None`; `log_tail` is
added only when the exit code is nonzero, as `out.splitlines()[-20:]`. -/
def mkRunEntry (rr : RunResult) : RunEntry :=
  { status := if rr.code = 0 then "ok" else "error"
    durationSec := some (roundTo 3 rr.dur)
    exitCode := rr.code
    peakMemoryMb := rr.peak.map (roundTo 1)
    peakMemoryLessAvailableMb := rr.pressure.map (roundTo 1)
    logTail := if rr.code = 0 then none else some (takeLast 20 (pySplitlines rr.out)) }

/-- Lines 136-140: the entry recorded for a job whose script path does not
exist: `{"status": "missing", "duration_sec": None, "exit_code": 127}`. -/
def missingEntry : RunEntry :=
  ⟨"missing", none, 127, none, none, none⟩

/-- One configured job as the `main` loop sees it: its name, whether
`path.exists()`, and the `run_script` result it would produce if executed
(psutil present, so `run_script` returns a tuple rather than raising). -/
structure JobSpec where
  name : String
  pathExists : Bool
  result : RunResult

/-- The body of the `for name, path in SCRIPTS` loop (lines 134-155), as the
entry it stores for one job. -/
def processJob (j : JobSpec) : RunEntry :=
  if j.pathExists then mkRunEntry j.result else missingEntry

/-- Python dict assignment `runs[name] = entry` on an insertion-ordered
association list: overwrite in place if the key is present, else append. -/
def dictInsert (runs : List (String × RunEntry)) (k : String) (v : RunEntry) :
    List (String × RunEntry) :=
  if runs.any (fun p => p.1 == k) then
    runs.map (fun p => if p.1 == k then (k, v) else p)
  else runs ++ [(k, v)]

/-- Python dict lookup `runs[name]` on the association list. -/
def lookupEntry (k : String) : List (String × RunEntry) → Option RunEntry
  | [] => none
  | p :: rest => if p.1 = k then some p.2 else lookupEntry k rest

/-- What `main` (lines 116-161) produces: the report's `meta.skipped` and
`meta.reason`, the `runs` mapping, the process exit code, and — to state
side-effect claims — the names of the jobs for which `run_script` was
actually invoked. -/
structure MainOut where
  skipped : Bool
  reason : Option String
  runs : List (String × RunEntry)
  exitCode : Int
  executed : List String

/-- `main`, lines 116-161.  If `has_data` fails, it records
`meta.skipped = True` with the reason string, writes the report with `runs`
empty and returns 0 without attempting any job (lines 127-132).  Otherwise it
iterates the configured jobs in order, storing `missingEntry` for jobs whose
path does not exist and `mkRunEntry` of the `run_script` result for the rest,
and returns 0 regardless of job outcomes (line 161). -/
def runMain (fs : FS) (jobs : List JobSpec) : MainOut :=
  if has_data fs then
    { skipped := false
      reason := none
      runs := jobs.foldl (fun acc j => dictInsert acc j.name (processJob j)) []
      exitCode := 0
      executed := (jobs.filter (fun j => j.pathExists)).map (fun j => j.name) }
  else
    { skipped := true
      reason := some ("No input data found under " ++ fs.dirName ++ ".")
      runs := []
      exitCode := 0
      executed := [] }

/-- The observable events of the primary thread during one `run_script` call,
in program order (the claim about join-before-read is a statement about this
order). -/
inductive Ev where
  | startSampler
  | readPreAvail
  | launchSubproc
  | waitSubproc
  | readMinFree
  | readPeak
  | buildResultTuple
  | setStopFlag
  | joinSampler
  | returnResult
deriving DecidableEq

/-- The primary thread's event order in `run_script` (lines 94-113), for the
normal (launch succeeded) path.  Per Python semantics, a `return` inside
`try`/`else` first evaluates the returned expression — reading
`min_mem_free_mb` at line 107 and `peak_mem_mb` at line 109 and building the
tuple — and only then runs the `finally` block (lines 110-113), which sets
`stop_flag` and joins the sampler thread with a 0.5 s timeout, before the
value is returned to the caller.  The `FileNotFoundError` path (lines
101-104) has the same relative order of these events. -/
def primaryEvents : List Ev :=
  [Ev.startSampler, Ev.readPreAvail, Ev.launchSubproc, Ev.waitSubproc,
   Ev.readMinFree, Ev.readPeak, Ev.buildResultTuple,
   Ev.setStopFlag, Ev.joinSampler, Ev.returnResult]

/-- Position of an event in the primary thread's program order. -/
def evIdx (e : Ev) : Nat :=
  primaryEvents.findIdx (fun x => x == e)

example : pySplitlines "a\n\nb\n" = ["a", "", "b"] := by decide
example : pySplitlines "" = [] := by decide
example : takeLast 2 ["a", "b", "c"] = ["b", "c"] := by decide
example : evIdx Ev.setStopFlag = 7 := by decide

/-! ## Helper lemmas -/

/-- The last-`n` slice has length `min n (length l)`. -/
lemma takeLast_length (n : Nat) (l : List String) : (takeLast n l).length = min n l.length := by
  simp [takeLast]
  omega

/-- The last-`n` slice is a suffix of the list. -/
lemma takeLast_suffix (n : Nat) (l : List String) : takeLast n l <:+ l :=
  ⟨l.take (l.length - n), List.take_append_drop _ _⟩

/-! ## Claims -/

/-- Claim C1 is contradicted by the code: although the module announces "RAM
monitoring disabled" when psutil is missing and guards the thread start and
join (lines 95, 112), line 98 reads `psutil.virtual_memory().available`
unconditionally, so with `psutil = None` every `run_script` call raises
`AttributeError` before launching the subprocess — it never returns the
claimed well-formed result with `None` memory fields. -/
theorem run_script_crashes_without_psutil :
    ∀ (procInit : Bool) (preBytes : Nat) (ticks : List Tick) (sub : SubprocResult) (dur : ℚ),
      runScript false procInit preBytes ticks sub dur = Except.error PyErr.attributeError := by
  intro procInit preBytes ticks sub dur
  rfl

/-- Claim C2, as stated, is false: in `run_script` the primary thread reads
`min_mem_free_mb` (line 107) and `peak_mem_mb` (line 109) and builds the
result tuple BEFORE the `finally` block sets `stop_flag` and joins the
sampler — the join does not precede the extrema reads in program order. -/
theorem extrema_read_before_join_counterexample :
    ¬ (evIdx Ev.joinSampler < evIdx Ev.readMinFree ∧
       evIdx Ev.joinSampler < evIdx Ev.readPeak) := by
  decide

/-- Claim C2 amended: the shared extrema are read and the result tuple is
built before `stop_flag` is set, the stop signal precedes the bounded join,
and the join precedes the return of the result to the caller — so the result
is reported to the orchestrator only after the sampler has been signalled and
joined, but the extrema reads themselves happen while the sampler may still
be running. -/
theorem extrema_read_join_order :
    evIdx Ev.readMinFree < evIdx Ev.setStopFlag ∧
    evIdx Ev.readPeak < evIdx Ev.setStopFlag ∧
    evIdx Ev.buildResultTuple < evIdx Ev.setStopFlag ∧
    evIdx Ev.setStopFlag < evIdx Ev.joinSampler ∧
    evIdx Ev.joinSampler < evIdx Ev.returnResult := by
  decide

/-- Claim C9: for every executed job (launch succeeded), the captured output
returned by `run_script` is the stdout text followed by the stderr text (with
a newline separator when stderr is non-empty). -/
theorem captured_output_order :
    ∀ (procInit : Bool) (preBytes : Nat) (ticks : List Tick) (sub : SubprocResult) (dur : ℚ),
      sub.launched = true →
      (runScript true procInit preBytes ticks sub dur).map RunResult.out
        = Except.ok (sub.stdout ++ ((if sub.stderr = "" then "" else "\n") ++ sub.stderr)) := by
  intro procInit preBytes ticks sub dur h
  by_cases he : sub.stderr = ""
  · simp [runScript, h, combineOutput, he, Except.map]
  · simp [runScript, h, combineOutput, he, Except.map]

/-- Witness for C9 at a concrete input. -/
theorem captured_output_order_witness :
    (runScript true true 0 [] ⟨true, 0, "o", "e", ""⟩ 1).map RunResult.out
      = Except.ok ("o" ++ ((if ("e" : String) = "" then "" else "\n") ++ "e")) :=
  captured_output_order true 0 [] ⟨true, 0, "o", "e", ""⟩ 1 rfl

/-- Claim C8: a run entry's status is "ok" iff the exit code is 0; `log_tail`
is present exactly for nonzero exit codes, in which case the status is
"error" and the stored tail is exactly the last `min 20 n` of the `n` output
lines (a suffix, never the full output when it has more than 20 lines). -/
theorem status_and_log_tail :
    ∀ rr : RunResult,
      ((mkRunEntry rr).status = "ok" ↔ rr.code = 0) ∧
      ((mkRunEntry rr).logTail
        = if rr.code = 0 then none else some (takeLast 20 (pySplitlines rr.out))) ∧
      (rr.code ≠ 0 → (mkRunEntry rr).status = "error" ∧
        (takeLast 20 (pySplitlines rr.out)).length = min 20 (pySplitlines rr.out).length ∧
        takeLast 20 (pySplitlines rr.out) <:+ pySplitlines rr.out) := by
  intro rr
  by_cases h : rr.code = 0
  · simp [mkRunEntry, h]
  · exact ⟨by simp [mkRunEntry, h], by simp [mkRunEntry, h],
      fun _ => ⟨by simp [mkRunEntry, h], takeLast_length _ _, takeLast_suffix _ _⟩⟩

/-- Witness for C8 at a failing job with two output lines. -/
theorem status_and_log_tail_witness :
    (mkRunEntry ⟨1, 0, "a\nb", none, none⟩).status = "error" ∧
    (mkRunEntry ⟨1, 0, "a\nb", none, none⟩).logTail = some ["a", "b"] := by
  have h := status_and_log_tail ⟨1, 0, "a\nb", none, none⟩
  refine ⟨(h.2.2 (by decide)).1, ?_⟩
  rw [h.2.1]
  decide

/-- Claim C10: in a run entry, the `peak_memory_mb` key is present iff the
sampler recorded a resident-memory sample (peak not `None`), and the
`peak_memory_less_available_mb` key is present iff an available-memory sample
was recorded (the pressure, hence the minimum, not `None`); and even with
psutil installed both can be absent — e.g. when the subprocess exits before
the sampler's first tick (empty trace). -/
theorem memory_keys_presence :
    (∀ rr : RunResult,
      ((mkRunEntry rr).peakMemoryMb ≠ none ↔ rr.peak ≠ none) ∧
      ((mkRunEntry rr).peakMemoryLessAvailableMb ≠ none ↔ rr.pressure ≠ none)) ∧
    (∀ preMb : ℚ, computePressure preMb none = none) ∧
    ((runScript true true 0 [] ⟨true, 0, "", "", ""⟩ 1).map
        (fun rr => (rr.peak, rr.pressure,
          (mkRunEntry rr).peakMemoryMb, (mkRunEntry rr).peakMemoryLessAvailableMb))
      = Except.ok (none, none, none, none)) := by
  refine ⟨?_, fun _ => rfl, ?_⟩
  · intro rr
    constructor
    · cases h : rr.peak <;> simp [mkRunEntry, h]
    · cases h : rr.pressure <;> simp [mkRunEntry, h]
  · simp [runScript, samplerRun, samplerLoop, computePressure, mkRunEntry, combineOutput,
      Except.map]

/-- Inserting a key not yet present appends the pair. -/
lemma dictInsert_fresh (acc : List (String × RunEntry)) (k : String) (v : RunEntry)
    (h : acc.any (fun p => p.1 == k) = false) : dictInsert acc k v = acc ++ [(k, v)] := by
  simp [dictInsert, h]

/-- Folding dict assignments of pairwise-distinct fresh keys over an
accumulator appends one pair per job, in order. -/
lemma foldl_dictInsert :
    ∀ (jobs : List JobSpec) (acc : List (String × RunEntry)),
      (∀ j ∈ jobs, acc.any (fun p => p.1 == j.name) = false) →
      (jobs.map JobSpec.name).Nodup →
      jobs.foldl (fun a j => dictInsert a j.name (processJob j)) acc
        = acc ++ jobs.map (fun j => (j.name, processJob j)) := by
  intro jobs
  induction jobs with
  | nil => intro acc _ _; simp
  | cons j rest ih =>
    intro acc hfresh hnd
    have hjf := hfresh j (List.mem_cons_self _ _)
    have hnd2 : (∀ x ∈ rest, ¬ x.name = j.name) ∧ (rest.map JobSpec.name).Nodup := by
      simpa using hnd
    have hfresh' : ∀ j' ∈ rest,
        (acc ++ [(j.name, processJob j)]).any (fun p => p.1 == j'.name) = false := by
      intro j' hj'
      have h1 := hfresh j' (List.mem_cons_of_mem _ hj')
      have h2 : (j.name == j'.name) = false := by
        rw [beq_eq_false_iff_ne]
        exact fun hEq => hnd2.1 j' hj' hEq.symm
      simp [List.any_append, h1, h2]
    rw [List.foldl_cons, dictInsert_fresh acc j.name (processJob j) hjf,
      ih (acc ++ [(j.name, processJob j)]) hfresh' hnd2.2]
    simp

/-- With data present and pairwise-distinct job names, the `runs` mapping is
exactly one entry per configured job, in configuration order. -/
lemma runMain_runs_eq (fs : FS) (jobs : List JobSpec) (hd : has_data fs = true)
    (hn : (jobs.map JobSpec.name).Nodup) :
    (runMain fs jobs).runs = jobs.map (fun j => (j.name, processJob j)) := by
  simp only [runMain, hd, if_true]
  simpa using foldl_dictInsert jobs [] (by intro j hj; simp) hn

/-- Looking a job's name up in the per-job entry list finds that job's entry
when names are pairwise distinct. -/
lemma lookupEntry_map :
    ∀ (jobs : List JobSpec) (j : JobSpec), j ∈ jobs →
      (jobs.map JobSpec.name).Nodup →
      lookupEntry j.name (jobs.map (fun j => (j.name, processJob j))) = some (processJob j) := by
  intro jobs
  induction jobs with
  | nil => intro j hj; cases hj
  | cons a rest ih =>
    intro j hj hn
    have hn2 : (∀ x ∈ rest, ¬ x.name = a.name) ∧ (rest.map JobSpec.name).Nodup := by
      simpa using hn
    rcases List.mem_cons.mp hj with rfl | hmem
    · simp [lookupEntry]
    · have hna : a.name ≠ j.name := fun hEq => hn2.1 j hmem hEq.symm
      simp only [List.map_cons, lookupEntry]
      rw [if_neg hna]
      exact ih j hmem hn2.2

/-- A job whose path does not exist is never in the executed list. -/
lemma name_not_executed (jobs : List JobSpec) (j : JobSpec) (hj : j ∈ jobs)
    (hn : (jobs.map JobSpec.name).Nodup) (hp : j.pathExists = false) :
    j.name ∉ (jobs.filter (fun j => j.pathExists)).map JobSpec.name := by
  intro hmem
  obtain ⟨j', hj', hname⟩ := List.mem_map.mp hmem
  have hj'f := List.mem_filter.mp hj'
  have : j' = j := List.inj_on_of_nodup_map hn hj'f.1 hj hname
  rw [this] at hj'f
  rw [hp] at hj'f
  exact Bool.false_ne_true hj'f.2

/-- Claim C5: when data is present (so the job loop runs) and job names are
pairwise distinct — as in the configured `SCRIPTS` list — the report's `runs`
mapping has exactly one entry per configured job, in order, whatever each
job's outcome was. -/
theorem report_runs_total :
    ∀ (fs : FS) (jobs : List JobSpec),
      has_data fs = true → (jobs.map JobSpec.name).Nodup →
      (runMain fs jobs).runs = jobs.map (fun j => (j.name, processJob j)) ∧
      (runMain fs jobs).runs.map Prod.fst = jobs.map JobSpec.name := by
  intro fs jobs hd hn
  have h := runMain_runs_eq fs jobs hd hn
  refine ⟨h, ?_⟩
  rw [h]
  simp

/-- Witness for C5: a data directory with one matching file and two jobs, one
missing and one executed. -/
theorem report_runs_total_witness :
    (runMain ⟨true, [true], "d"⟩
        [⟨"a", false, ⟨0, 1, "", none, none⟩⟩, ⟨"b", true, ⟨0, 1, "", none, none⟩⟩]).runs
      = List.map (fun j => (j.name, processJob j))
          [⟨"a", false, ⟨0, 1, "", none, none⟩⟩, ⟨"b", true, ⟨0, 1, "", none, none⟩⟩] ∧
    (runMain ⟨true, [true], "d"⟩
        [⟨"a", false, ⟨0, 1, "", none, none⟩⟩, ⟨"b", true, ⟨0, 1, "", none, none⟩⟩]).runs.map Prod.fst
      = List.map JobSpec.name
          [⟨"a", false, ⟨0, 1, "", none, none⟩⟩, ⟨"b", true, ⟨0, 1, "", none, none⟩⟩] :=
  report_runs_total ⟨true, [true], "d"⟩
    [⟨"a", false, ⟨0, 1, "", none, none⟩⟩, ⟨"b", true, ⟨0, 1, "", none, none⟩⟩]
    (by decide) (by decide)

/-- Claim C6: if the data directory does not exist, or no glob match is a
file, then `has_data` is false and `main` writes a skipped report with the
human-readable reason, an empty `runs`, attempts no job, and returns 0 — for
any job list. -/
theorem skip_without_data :
    ∀ (fs : FS) (jobs : List JobSpec),
      (fs.dirExists = false ∨ ∀ b ∈ fs.globIsFile, b = false) →
      has_data fs = false ∧
      (runMain fs jobs).skipped = true ∧
      (runMain fs jobs).reason = some ("No input data found under " ++ fs.dirName ++ ".") ∧
      (runMain fs jobs).runs = [] ∧
      (runMain fs jobs).exitCode = 0 ∧
      (runMain fs jobs).executed = [] := by
  intro fs jobs h
  have hd : has_data fs = false := by
    rcases h with h | h
    · simp [has_data, h]
    · have : fs.globIsFile.any id = false := by
        rw [List.any_eq_false]
        intro b hb
        simp [h b hb]
      simp [has_data, this]
  rw [hd]
  exact ⟨rfl, by simp [runMain, hd], by simp [runMain, hd], by simp [runMain, hd],
    by simp [runMain, hd], by simp [runMain, hd]⟩

/-- Witness for C6: a missing directory. -/
theorem skip_without_data_witness :
    has_data ⟨false, [], "ALKIS"⟩ = false ∧
    (runMain ⟨false, [], "ALKIS"⟩ []).skipped = true ∧
    (runMain ⟨false, [], "ALKIS"⟩ []).reason
      = some ("No input data found under " ++ "ALKIS" ++ ".") ∧
    (runMain ⟨false, [], "ALKIS"⟩ []).runs = [] ∧
    (runMain ⟨false, [], "ALKIS"⟩ []).exitCode = 0 ∧
    (runMain ⟨false, [], "ALKIS"⟩ []).executed = [] := by
  have h := skip_without_data ⟨false, [], "ALKIS"⟩ [] (Or.inl rfl)
  simpa using h

/-- Claim C7: with data present and distinct job names, a configured job
whose script path does not exist gets exactly the entry
`status = "missing"`, `exit_code = 127`, `duration_sec = null`, and
`run_script` is never invoked for it (no execution side effects); the other
jobs are unaffected (totality is claim C5). -/
theorem missing_script_entry :
    ∀ (fs : FS) (jobs : List JobSpec) (j : JobSpec),
      has_data fs = true → (jobs.map JobSpec.name).Nodup →
      j ∈ jobs → j.pathExists = false →
      lookupEntry j.name (runMain fs jobs).runs = some missingEntry ∧
      missingEntry.status = "missing" ∧
      missingEntry.exitCode = 127 ∧
      missingEntry.durationSec = none ∧
      j.name ∉ (runMain fs jobs).executed := by
  intro fs jobs j hd hn hj hp
  have hruns := runMain_runs_eq fs jobs hd hn
  refine ⟨?_, rfl, rfl, rfl, ?_⟩
  · rw [hruns, lookupEntry_map jobs j hj hn]
    simp [processJob, hp]
  · have hex : (runMain fs jobs).executed
        = (jobs.filter (fun j => j.pathExists)).map JobSpec.name := by
      simp [runMain, hd]
    rw [hex]
    exact name_not_executed jobs j hj hn hp

/-- Witness for C7: one configured job with a missing script. -/
theorem missing_script_entry_witness :
    lookupEntry "a" (runMain ⟨true, [true], "d"⟩ [⟨"a", false, ⟨0, 1, "", none, none⟩⟩]).runs
      = some missingEntry ∧
    missingEntry.status = "missing" ∧
    missingEntry.exitCode = 127 ∧
    missingEntry.durationSec = none ∧
    "a" ∉ (runMain ⟨true, [true], "d"⟩ [⟨"a", false, ⟨0, 1, "", none, none⟩⟩]).executed := by
  have h := missing_script_entry ⟨true, [true], "d"⟩ [⟨"a", false, ⟨0, 1, "", none, none⟩⟩]
    ⟨"a", false, ⟨0, 1, "", none, none⟩⟩ (by decide) (by decide)
    (List.mem_cons_self _ _) rfl
  simpa using h

/-- Whether a fallible read succeeded. -/
def isOkB {α : Type} : Except PyErr α → Bool
  | .ok _ => true
  | .error _ => false

/-- Claim C3, as stated, is false: the outer `except psutil.Error: pass`
(lines 78-92) wraps the WHOLE loop, so a psutil error raised by the
target-process rss read terminates the sampling loop instead of letting it
continue.  Concretely, on a two-tick trace whose first tick fails the rss
read, the code stops after tick one (`minFree = 200`, no peak recorded),
while the claimed absorb-and-continue sampler would also process tick two
(`minFree = 50`, `peak = 1`). -/
theorem sampler_halts_on_target_error_counterexample :
    samplerLoop ⟨none, none⟩
        [⟨Except.ok (200 * 1048576), Except.error PyErr.psutilError, Except.ok []⟩,
         ⟨Except.ok (50 * 1048576), Except.ok 1048576, Except.ok []⟩]
      ≠ samplerLoopClaimed ⟨none, none⟩
        [⟨Except.ok (200 * 1048576), Except.error PyErr.psutilError, Except.ok []⟩,
         ⟨Except.ok (50 * 1048576), Except.ok 1048576, Except.ok []⟩] := by
  intro h
  have hL : samplerLoop ⟨none, none⟩
      [⟨Except.ok (200 * 1048576), Except.error PyErr.psutilError, Except.ok []⟩,
       ⟨Except.ok (50 * 1048576), Except.ok 1048576, Except.ok []⟩]
      = ⟨some 200, none⟩ := by
    simp [samplerLoop, updateMinFree]
    norm_num [bytesToMb]
  have hR : samplerLoopClaimed ⟨none, none⟩
      [⟨Except.ok (200 * 1048576), Except.error PyErr.psutilError, Except.ok []⟩,
       ⟨Except.ok (50 * 1048576), Except.ok 1048576, Except.ok []⟩]
      = ⟨some 50, some 1⟩ := by
    simp [samplerLoopClaimed, updateMinFree, updatePeak, childrenRss, min_def]
    norm_num [bytesToMb]
  rw [hL, hR] at h
  simp at h

/-- Claim C3 amended: only a failed rss read of an individual CHILD process
is absorbed in place and sampling continues (on traces whose system-memory,
target-rss and child-enumeration reads all succeed, the code behaves exactly
like the absorb-and-continue sampler, child failures included); a psutil
error from the system-memory read — and likewise the target read or the
enumeration — silently terminates the whole loop with the extrema recorded so
far, and in no case does an error propagate to the caller (`samplerLoop` is
total). -/
theorem sampler_error_absorption :
    (∀ (st : SamplerState) (ticks : List Tick),
        (∀ t ∈ ticks, isOkB t.vmAvail = true ∧ isOkB t.memRss = true ∧ isOkB t.children = true) →
        samplerLoop st ticks = samplerLoopClaimed st ticks) ∧
    (∀ (st : SamplerState) (t : Tick) (rest : List Tick) (e : PyErr),
        t.vmAvail = Except.error e → samplerLoop st (t :: rest) = st) := by
  constructor
  · intro st ticks
    induction ticks generalizing st with
    | nil => intro _; rfl
    | cons t rest ih =>
      intro h
      obtain ⟨hvm, hrss, hch⟩ := h t (List.mem_cons_self _ _)
      have hrest := fun t' ht' => h t' (List.mem_cons_of_mem _ ht')
      cases hv : t.vmAvail with
      | error e => rw [hv] at hvm; simp [isOkB] at hvm
      | ok avail =>
        cases hr : t.memRss with
        | error e => rw [hr] at hrss; simp [isOkB] at hrss
        | ok rss0 =>
          cases hc : t.children with
          | error e => rw [hc] at hch; simp [isOkB] at hch
          | ok cs =>
            simp only [samplerLoop, samplerLoopClaimed, hv, hr, hc]
            exact ih _ hrest
  · intro st t rest e hv
    simp [samplerLoop, hv]

/-- Witness for C3 (amended): a tick whose only failure is one child's rss
read is processed identically by the code and the absorb-and-continue
sampler, and a tick failing the system-memory read stops the code's loop with
the prior extrema intact. -/
theorem sampler_error_absorption_witness :
    samplerLoop ⟨none, none⟩
        [⟨Except.ok 1048576, Except.ok 1048576, Except.ok [Except.error PyErr.psutilError]⟩]
      = samplerLoopClaimed ⟨none, none⟩
        [⟨Except.ok 1048576, Except.ok 1048576, Except.ok [Except.error PyErr.psutilError]⟩] ∧
    samplerLoop ⟨some 1, some 1⟩
        [⟨Except.error PyErr.psutilError, Except.ok 0, Except.ok []⟩, ⟨Except.ok 0, Except.ok 0, Except.ok []⟩]
      = ⟨some 1, some 1⟩ :=
  ⟨sampler_error_absorption.1 ⟨none, none⟩
      [⟨Except.ok 1048576, Except.ok 1048576, Except.ok [Except.error PyErr.psutilError]⟩]
      (by intro t ht; simp at ht; rw [ht]; exact ⟨rfl, rfl, rfl⟩),
   sampler_error_absorption.2 ⟨some 1, some 1⟩
      ⟨Except.error PyErr.psutilError, Except.ok 0, Except.ok []⟩
      [⟨Except.ok 0, Except.ok 0, Except.ok []⟩] PyErr.psutilError rfl⟩

/-- Every recorded peak is the megabyte image of a byte count, hence ≥ 0. -/
lemma samplerLoop_peak_nonneg :
    ∀ (ticks : List Tick) (st : SamplerState),
      (∀ p, st.peak = some p → 0 ≤ p) →
      ∀ p, (samplerLoop st ticks).peak = some p → 0 ≤ p := by
  intro ticks
  induction ticks with
  | nil => intro st h; exact h
  | cons t rest ih =>
    intro st h p
    cases hv : t.vmAvail with
    | error e =>
      simp only [samplerLoop, hv]
      exact h p
    | ok avail =>
      cases hr : t.memRss with
      | error e =>
        simp only [samplerLoop, hv, hr]
        exact h p
      | ok rss0 =>
        cases hc : t.children with
        | error e =>
          simp only [samplerLoop, hv, hr, hc]
          exact h p
        | ok cs =>
          simp only [samplerLoop, hv, hr, hc]
          intro hp
          refine ih _ ?_ p hp
          intro q hq
          have hcur : 0 ≤ bytesToMb (childrenRss rss0 cs) := by
            unfold bytesToMb
            positivity
          simp only [Option.some.injEq] at hq
          rw [← hq]
          cases hst : st.peak with
          | none => simpa [updatePeak, hst] using hcur
          | some p' =>
            have hp' := h p' hst
            simp only [updatePeak, hst]
            split
            · exact hcur
            · exact hp'

/-- Python's `round(x, d)` of a nonnegative number is nonnegative. -/
lemma roundTo_nonneg (d : Nat) (q : ℚ) (h : 0 ≤ q) : 0 ≤ roundTo d q := by
  unfold roundTo
  apply div_nonneg _ (by positivity)
  have h2 : (0 : ℤ) ≤ round (q * (10 : ℚ) ^ d) := by
    rw [round_eq]
    have h1 : (0 : ℚ) ≤ q * 10 ^ d := by positivity
    exact Int.floor_nonneg.mpr (by linarith)
  exact_mod_cast h2

/-- Claim C4, as stated, is false: `peak_memory_less_available_mb` is
`pre_mem_free_mb - min_mem_free_mb`, and nothing forces the minimum sampled
available memory below the pre-launch reading — if the only sample sees MORE
available memory than before the launch (here 150 MB against a 100 MB
pre-launch reading), the reported memory pressure is negative. -/
theorem memory_pressure_negative_counterexample :
    runScript true true (100 * 1048576)
        [⟨Except.ok (150 * 1048576), Except.ok 0, Except.ok []⟩]
        ⟨true, 0, "", "", ""⟩ 1
      = Except.ok ⟨0, 1, "", some 0, some (-50)⟩ ∧ ((-50 : ℚ) < 0) := by
  constructor
  · simp [runScript, samplerRun, samplerLoop, updateMinFree, updatePeak, childrenRss,
      computePressure, combineOutput]
    norm_num [bytesToMb]
  · norm_num

/-- Claim C4 amended: `peak_memory_mb`, when reported, is always ≥ 0 (both
before and after rounding), and the memory pressure is exactly the pre-launch
available memory minus the minimum sampled available memory — nonnegative
precisely when that minimum does not exceed the pre-launch reading (it can be
negative when available memory only rose during the run). -/
theorem memory_extrema_signs :
    ∀ (preBytes : Nat) (ticks : List Tick),
      (∀ p, (samplerRun true ticks).peak = some p → 0 ≤ p ∧ 0 ≤ roundTo 1 p) ∧
      (∀ m, (samplerRun true ticks).minFree = some m →
        computePressure (bytesToMb preBytes) (some m) = some (bytesToMb preBytes - m) ∧
        (0 ≤ bytesToMb preBytes - m ↔ m ≤ bytesToMb preBytes)) := by
  intro preBytes ticks
  constructor
  · intro p hp
    have hp' : (samplerLoop ⟨none, none⟩ ticks).peak = some p := by
      simpa [samplerRun] using hp
    have h0 : 0 ≤ p := by
      refine samplerLoop_peak_nonneg ticks ⟨none, none⟩ ?_ p hp'
      intro q hq
      simp at hq
    exact ⟨h0, roundTo_nonneg 1 p h0⟩
  · intro m _
    refine ⟨rfl, ?_⟩
    constructor
    · intro h; linarith
    · intro h; linarith

/-- Witness for C4 (amended) at a one-tick trace: peak 5 MB, minimum
available 50 MB, pre-launch 100 MB. -/
theorem memory_extrema_signs_witness :
    (0 ≤ (5 : ℚ) ∧ 0 ≤ roundTo 1 5) ∧
    (computePressure (bytesToMb (100 * 1048576)) (some 50)
        = some (bytesToMb (100 * 1048576) - 50) ∧
      (0 ≤ bytesToMb (100 * 1048576) - 50 ↔ (50 : ℚ) ≤ bytesToMb (100 * 1048576))) :=
  ⟨(memory_extrema_signs (100 * 1048576)
      [⟨Except.ok (50 * 1048576), Except.ok (5 * 1048576), Except.ok []⟩]).1 5
      (by simp [samplerRun, samplerLoop, updateMinFree, updatePeak, childrenRss]
          norm_num [bytesToMb]),
   (memory_extrema_signs (100 * 1048576)
      [⟨Except.ok (50 * 1048576), Except.ok (5 * 1048576), Except.ok []⟩]).2 50
      (by simp [samplerRun, samplerLoop, updateMinFree, updatePeak, childrenRss]
          norm_num [bytesToMb])⟩
